import Mathlib

/-!
Shallow embedding of `src/oylab/js/main.js`, the single client-side script of
the Oylab repository.  The script wires three behaviours on `DOMContentLoaded`:
a scroll-reveal intersection observer, an animated numeric counter, and a
mobile navigation toggle.  JavaScript numbers are modelled as exact rationals;
`querySelector` results are modelled as `Option`, and a JavaScript `TypeError`
raised by dereferencing `null` is modelled with `Except`.
-/

namespace Oylab

/-! ### Counter animation (`counterObserver` callback and `updateCounter`) -/

/-- `const duration = 1500` (animation duration in ms). -/
def duration : ℚ := 1500

/-- `const stepTime = 15` (per-step timer delay in ms). -/
def stepTime : ℚ := 15

/-- `const totalSteps = duration / stepTime`. -/
def totalSteps : ℚ := duration / stepTime

/-- `const increment = target / totalSteps`. -/
def increment (target : ℚ) : ℚ := target / totalSteps

/-- Per-element animation state: the running accumulator `current`, the value
last written to `counter.innerText` (`none` before the first write), and
whether a further `setTimeout(updateCounter, stepTime)` call is pending. -/
structure CounterState where
  current : ℚ
  displayed : Option ℚ
  scheduled : Bool
  deriving DecidableEq

/-- State just before the first `updateCounter()` call: `let current = 0`;
nothing written yet; the initial synchronous call counts as pending. -/
def initState : CounterState :=
  { current := 0, displayed := none, scheduled := true }

/-- One invocation of `updateCounter`:
`current += increment; if (current < target) { counter.innerText = Math.ceil(current);
setTimeout(updateCounter, stepTime); } else { counter.innerText = target; }`.
When no call is pending the state is unchanged. -/
def updateCounter (target : ℚ) (s : CounterState) : CounterState :=
  if s.scheduled then
    let c := s.current + increment target
    if c < target then
      { current := c, displayed := some ((⌈c⌉ : ℤ) : ℚ), scheduled := true }
    else
      { current := c, displayed := some target, scheduled := false }
  else s

/-- Animation state after `n` invocations of `updateCounter`. -/
def runCounter (target : ℚ) (n : ℕ) : CounterState :=
  (updateCounter target)^[n] initState

/-- The value currently shown in the element's text, `0` before any write. -/
def displayedAt (target : ℚ) (n : ℕ) : ℚ :=
  ((runCounter target n).displayed).getD 0

lemma runCounter_zero (t : ℚ) : runCounter t 0 = initState := rfl

lemma runCounter_succ (t : ℚ) (n : ℕ) :
    runCounter t (n + 1) = updateCounter t (runCounter t n) :=
  Function.iterate_succ_apply' (updateCounter t) n initState

lemma updateCounter_of_not_scheduled {t : ℚ} {s : CounterState}
    (h : s.scheduled = false) : updateCounter t s = s := by
  simp [updateCounter, h]

lemma runCounter_stable (t : ℚ) (k : ℕ)
    (h : (runCounter t k).scheduled = false) :
    ∀ m, k ≤ m → runCounter t m = runCounter t k := by
  intro m hm
  induction m, hm using Nat.le_induction with
  | base => rfl
  | succ m hm ih =>
      rw [runCounter_succ, ih, updateCounter_of_not_scheduled h]

lemma totalSteps_eq : totalSteps = 100 := by
  norm_num [totalSteps, duration, stepTime]

lemma increment_eq (t : ℚ) : increment t = t / 100 := by
  rw [increment, totalSteps_eq]

/-- Closed form for the first 99 invocations when the target is positive:
the accumulator is `n * t / 100`, the ceiling of it is displayed, and a
further step is always scheduled. -/
lemma runCounter_mid (t : ℚ) (ht : 0 < t) :
    ∀ n, n ≤ 99 → runCounter t n =
      { current := n * t / 100,
        displayed := if n = 0 then none else some ((⌈(n * t / 100 : ℚ)⌉ : ℤ) : ℚ),
        scheduled := true } := by
  intro n hn
  induction n with
  | zero => simp [runCounter_zero, initState]
  | succ n ih =>
      have hn' : n ≤ 99 := Nat.le_of_succ_le hn
      have hlt : ((n : ℚ) + 1) * t / 100 < t := by
        have hb : ((n : ℚ) + 1) ≤ 99 := by
          have : (n : ℚ) ≤ 98 := by exact_mod_cast Nat.lt_succ_iff.mp hn
          linarith
        rw [div_lt_iff₀ (by norm_num : (0 : ℚ) < 100)]
        nlinarith
      have hc : (n : ℚ) * t / 100 + increment t = ((n : ℚ) + 1) * t / 100 := by
        rw [increment_eq]; ring
      rw [runCounter_succ, ih hn', updateCounter]
      simp only [if_true]
      push_cast
      rw [hc]
      simp [hlt]

/-- At the 100th invocation the accumulator reaches the target exactly, the
target itself is written, and no further step is scheduled. -/
lemma runCounter_done (t : ℚ) (ht : 0 < t) :
    runCounter t 100 = { current := t, displayed := some t, scheduled := false } := by
  have h99 := runCounter_mid t ht 99 le_rfl
  have hc : (99 : ℚ) * t / 100 + increment t = t := by
    rw [increment_eq]; ring
  rw [show (100 : ℕ) = 99 + 1 from rfl, runCounter_succ, h99, updateCounter]
  simp only [if_true]
  rw [show ((99 : ℕ) : ℚ) = (99 : ℚ) from by norm_num, hc]
  simp

/-! ### Counter intersection observer (`counterObserver`)

Elements are identified by natural numbers.  The observer state records the
set of elements currently observed and, for auditing the at-most-once
property, how many animation runs were started per element.  The host
delivers an intersection entry only for a currently observed element; the
callback then checks `entry.isIntersecting`, starts the animation and calls
`observer.unobserve(counter)`. -/

structure CounterObsState where
  observed : Finset ℕ
  started : ℕ → ℕ

/-- Delivery of one intersection entry `(e, isInter)` to the `counterObserver`
callback.  The host only generates entries for observed targets; the callback
body runs the `entry.isIntersecting` branch, starting `updateCounter` and
unobserving the element. -/
def deliverEntry (s : CounterObsState) (e : ℕ) (isInter : Bool) : CounterObsState :=
  if e ∈ s.observed then
    if isInter then
      { observed := s.observed.erase e,
        started := fun x => if x = e then s.started x + 1 else s.started x }
    else s
  else s

/-- Observer state after a sequence of intersection entries. -/
def runCounterObs (s : CounterObsState) : List (ℕ × Bool) → CounterObsState
  | [] => s
  | (e, b) :: evs => runCounterObs (deliverEntry s e b) evs

/-- Initial `counterObserver` state: all `.js-counter` elements observed, no
animation started yet. -/
def initCounterObs (elems : Finset ℕ) : CounterObsState :=
  { observed := elems, started := fun _ => 0 }

/-- Invariant maintained by entry delivery: each element has started at most
one run, and an element that has started a run is no longer observed. -/
def ObsInv (s : CounterObsState) : Prop :=
  ∀ e, s.started e ≤ 1 ∧ (1 ≤ s.started e → e ∉ s.observed)

lemma deliverEntry_inv {s : CounterObsState} (h : ObsInv s) (e : ℕ) (b : Bool) :
    ObsInv (deliverEntry s e b) := by
  intro x
  by_cases he : e ∈ s.observed
  · by_cases hb : b = true
    · subst hb
      have hz : s.started e = 0 := by
        by_contra hne
        exact (h e).2 (Nat.one_le_iff_ne_zero.mpr hne) he
      by_cases hx : x = e
      · subst hx
        refine ⟨by simp [deliverEntry, he, hz], fun _ => ?_⟩
        simp [deliverEntry, he]
      · refine ⟨by simpa [deliverEntry, he, hx] using (h x).1, fun h1 => ?_⟩
        have : x ∉ s.observed := (h x).2 (by simpa [deliverEntry, he, hx] using h1)
        simp [deliverEntry, he, hx, Finset.mem_erase, this]
    · have hb' : b = false := by cases b <;> simp_all
      simpa [deliverEntry, he, hb'] using h x
  · simpa [deliverEntry, he] using h x

lemma runCounterObs_inv {s : CounterObsState} (h : ObsInv s) :
    ∀ evs : List (ℕ × Bool), ObsInv (runCounterObs s evs) := by
  intro evs
  induction evs generalizing s with
  | nil => exact h
  | cons ev evs ih => exact ih (deliverEntry_inv h ev.1 ev.2)

/-! ### Reveal animator (`observer` over `.scroll-animate` elements)

The callback runs `entry.target.classList.add('visible')` for each
intersecting entry; the state is the set of elements carrying the `visible`
marker class. -/

/-- One intersection entry for the reveal observer. -/
def revealEntry (visible : Finset ℕ) (e : ℕ) (isInter : Bool) : Finset ℕ :=
  if isInter then insert e visible else visible

/-- Visible-set after a sequence of intersection entries. -/
def runReveal (visible : Finset ℕ) : List (ℕ × Bool) → Finset ℕ
  | [] => visible
  | (e, b) :: evs => runReveal (revealEntry visible e b) evs

lemma subset_runReveal (v : Finset ℕ) :
    ∀ evs : List (ℕ × Bool), v ⊆ runReveal v evs := by
  intro evs
  induction evs generalizing v with
  | nil => exact Finset.Subset.refl v
  | cons ev evs ih =>
      refine Finset.Subset.trans ?_ (ih (revealEntry v ev.1 ev.2))
      by_cases hb : ev.2 = true
      · simp [revealEntry, hb, Finset.subset_insert]
      · have : ev.2 = false := by cases hev : ev.2 <;> simp_all
        simp [revealEntry, this]

/-! ### Mobile menu toggle (`navbarToggler` click handler)

`document.querySelector` yields `none` when the element is absent.  Menu
state is the presence of the `active` class on `navbarMenu`, a boolean.
Accessing a property of `null` raises a TypeError, modelled as `Except.error`. -/

/-- `navbarToggler.addEventListener('click', ...)` during initialization:
faults immediately when the toggle control was not found. -/
def menuInit (navbarToggler : Option Unit) : Except Unit Unit :=
  match navbarToggler with
  | none => .error ()
  | some _ => .ok ()

/-- The bound click handler `() => navbarMenu.classList.toggle('active')`:
faults when the menu container was not found, otherwise flips the class. -/
def menuClickHandler (navbarMenu : Option Bool) : Except Unit Bool :=
  match navbarMenu with
  | none => .error ()
  | some active => .ok (!active)

/-- `classList.toggle('active')` on the present menu container. -/
def menuToggle (active : Bool) : Bool := !active

/-- Menu state after `n` clicks, starting from Closed (class absent). -/
def menuAfterClicks (n : ℕ) : Bool := menuToggle^[n] false

lemma menuAfterClicks_succ (n : ℕ) :
    menuAfterClicks (n + 1) = !(menuAfterClicks n) :=
  Function.iterate_succ_apply' menuToggle n false

/-- `+counter.getAttribute('data-target')`: `getAttribute` yields `null` when
the attribute is absent, and JavaScript `ToNumber(null) = 0`; a present
attribute is modelled by its numeric value. -/
def readTarget : Option ℚ → ℚ
  | none => 0
  | some v => v

/-- Shared computation: with target `0` the first `updateCounter` call leaves
the accumulator at `0`, writes `0`, and schedules nothing. -/
lemma runCounter_target_zero :
    runCounter 0 1 = { current := 0, displayed := some 0, scheduled := false } := by
  rw [show (1 : ℕ) = 0 + 1 from rfl, runCounter_succ, runCounter_zero, updateCounter]
  simp [initState, increment_eq]

/-! ### Claims -/

/-- Claim C1: for every integer target `T ≥ 1` the counter animation
terminates; at termination the displayed value equals `T` exactly (the
terminal step writes the target itself, not a rounded accumulator), no
further timer step is scheduled, and the state never changes afterwards. -/
theorem counter_convergence (T : ℤ) (hT : 1 ≤ T) :
    ∃ n : ℕ, (runCounter (T : ℚ) n).displayed = some (T : ℚ) ∧
      (runCounter (T : ℚ) n).scheduled = false ∧
      ∀ m, n ≤ m → runCounter (T : ℚ) m = runCounter (T : ℚ) n := by
  have ht : (0 : ℚ) < (T : ℚ) := by exact_mod_cast lt_of_lt_of_le one_pos hT
  have hd := runCounter_done (T : ℚ) ht
  exact ⟨100, by rw [hd], by rw [hd], runCounter_stable _ 100 (by rw [hd])⟩

/-- Witness for C1 at `T = 7`. -/
theorem counter_convergence_witness :
    (1 : ℤ) ≤ 7 ∧
      ∃ n : ℕ, (runCounter ((7 : ℤ) : ℚ) n).displayed = some ((7 : ℤ) : ℚ) ∧
        (runCounter ((7 : ℤ) : ℚ) n).scheduled = false ∧
        ∀ m, n ≤ m → runCounter ((7 : ℤ) : ℚ) m = runCounter ((7 : ℤ) : ℚ) n :=
  ⟨by decide, counter_convergence 7 (by decide)⟩

/-- Claim C2: over any sequence of intersection entries, each counter element
starts at most one animation run — the first qualifying intersection removes
it from the watcher, so later re-entries never restart the animation. -/
theorem counter_at_most_once (elems : Finset ℕ) (evs : List (ℕ × Bool)) (e : ℕ) :
    (runCounterObs (initCounterObs elems) evs).started e ≤ 1 := by
  have h0 : ObsInv (initCounterObs elems) := by
    intro x
    refine ⟨by simp [initCounterObs], fun hx => ?_⟩
    simp [initCounterObs] at hx
  exact ((runCounterObs_inv h0 evs) e).1

/-- Claim C3: starting from Closed, `N` clicks on the toggle control leave
the menu Open exactly when `N` is odd; each click is exactly the toggle
transition on the `active` class. -/
theorem toggle_parity (n : ℕ) :
    menuAfterClicks n = decide (n % 2 = 1) ∧
    menuToggle false = true ∧ menuToggle true = false := by
  refine ⟨?_, rfl, rfl⟩
  induction n with
  | zero => rfl
  | succ n ih =>
      rw [menuAfterClicks_succ, ih]
      rcases Nat.mod_two_eq_zero_or_one n with h | h <;> simp [Nat.add_mod, h]

/-- Claim C4: marking an already-visible reveal element changes nothing, and
an element once visible stays visible under any further intersection
callbacks — the hidden-to-visible transition is one-way. -/
theorem reveal_idempotent_one_way (v : Finset ℕ) (e : ℕ) (evs : List (ℕ × Bool)) :
    (e ∈ v → ∀ b, revealEntry v e b = v) ∧
    (e ∈ v → e ∈ runReveal v evs) ∧
    e ∈ runReveal (revealEntry v e true) evs := by
  refine ⟨fun he b => ?_, fun he => subset_runReveal v evs he,
    subset_runReveal _ evs (by simp [revealEntry])⟩
  cases b
  · rfl
  · simp [revealEntry, Finset.insert_eq_self.mpr he]

/-- Witness for C4 on concrete sets and event lists. -/
theorem reveal_idempotent_one_way_witness :
    revealEntry {1} 1 true = {1} ∧ 1 ∈ runReveal {1} [(2, true), (1, false)] :=
  ⟨(reveal_idempotent_one_way {1} 1 []).1 (by simp) true,
   (reveal_idempotent_one_way {1} 1 [(2, true), (1, false)]).2.1 (by simp)⟩

/-- Claim C5: `totalSteps = 1500 / 15 = 100`, the increment for target `100`
is exactly `1`, after 100 steps the displayed value is exactly `100` with no
further step scheduled, and a qualifying intersection removes the element
from the watcher. -/
theorem counter_step_size :
    totalSteps = 100 ∧ increment 100 = 1 ∧
    (runCounter 100 100).displayed = some 100 ∧
    (runCounter 100 100).scheduled = false ∧
    ∀ s e, (deliverEntry s e true).observed = s.observed.erase e := by
  have hd := runCounter_done (100 : ℚ) (by norm_num)
  refine ⟨totalSteps_eq, by rw [increment_eq]; norm_num, by rw [hd], by rw [hd], ?_⟩
  intro s e
  by_cases he : e ∈ s.observed
  · simp [deliverEntry, he]
  · simp [deliverEntry, he, Finset.erase_eq_of_not_mem he]

lemma displayedAt_mid (t : ℚ) (ht : 0 < t) {n : ℕ} (h1 : 1 ≤ n) (h2 : n ≤ 99) :
    displayedAt t n = ((⌈((n : ℚ) * t / 100 : ℚ)⌉ : ℤ) : ℚ) := by
  rw [displayedAt, runCounter_mid t ht n h2]
  simp [Nat.one_le_iff_ne_zero.mp h1]

lemma displayedAt_late (t : ℚ) (ht : 0 < t) {n : ℕ} (h : 100 ≤ n) :
    displayedAt t n = t := by
  have hd := runCounter_done t ht
  rw [displayedAt, runCounter_stable t 100 (by rw [hd]) n h, hd]
  rfl

lemma ceil_step_le {t : ℚ} (ht : 0 ≤ t) (n : ℕ) :
    ((⌈((n : ℚ) * t / 100 : ℚ)⌉ : ℤ) : ℚ) ≤ ((⌈(((n : ℚ) + 1) * t / 100 : ℚ)⌉ : ℤ) : ℚ) := by
  have hle : (n : ℚ) * t / 100 ≤ ((n : ℚ) + 1) * t / 100 := by
    have h1 : (n : ℚ) ≤ (n : ℚ) + 1 := by linarith
    gcongr
  exact_mod_cast Int.ceil_le_ceil hle

lemma ceil_frac_le_target (T : ℤ) (hT : 1 ≤ T) {n : ℕ} (hn : n ≤ 100) :
    ((⌈((n : ℚ) * (T : ℚ) / 100 : ℚ)⌉ : ℤ) : ℚ) ≤ (T : ℚ) := by
  have hTn : (0 : ℚ) ≤ (T : ℚ) := by exact_mod_cast le_trans zero_le_one hT
  have hfrac : (n : ℚ) * (T : ℚ) / 100 ≤ (T : ℚ) := by
    rw [div_le_iff₀ (by norm_num : (0 : ℚ) < 100)]
    have hn' : (n : ℚ) ≤ 100 := by exact_mod_cast hn
    nlinarith
  exact_mod_cast Int.ceil_le.mpr hfrac

/-- Claim C6: for every integer target `T ≥ 1` the displayed values form a
non-decreasing sequence, never exceed `T`, and end at `T`. -/
theorem counter_monotone (T : ℤ) (hT : 1 ≤ T) :
    (∀ n, 1 ≤ n → displayedAt (T : ℚ) n ≤ displayedAt (T : ℚ) (n + 1)) ∧
    (∀ n, 1 ≤ n → displayedAt (T : ℚ) n ≤ (T : ℚ)) ∧
    displayedAt (T : ℚ) 100 = (T : ℚ) := by
  have ht : (0 : ℚ) < (T : ℚ) := by exact_mod_cast lt_of_lt_of_le one_pos hT
  refine ⟨fun n h1 => ?_, fun n h1 => ?_, displayedAt_late (T : ℚ) ht le_rfl⟩
  · rcases Nat.lt_or_ge n 99 with h | h
    · rw [displayedAt_mid (T : ℚ) ht h1 (Nat.le_of_lt h),
        displayedAt_mid (T : ℚ) ht (by omega) h]
      have := ceil_step_le ht.le n
      simpa using this
    · rcases Nat.eq_or_lt_of_le h with h99 | h100
      · rw [← h99, displayedAt_mid (T : ℚ) ht (by norm_num) (by norm_num),
          displayedAt_late (T : ℚ) ht (by norm_num)]
        exact ceil_frac_le_target T hT (by norm_num)
      · rw [displayedAt_late (T : ℚ) ht (by omega),
          displayedAt_late (T : ℚ) ht (by omega)]
  · rcases Nat.lt_or_ge n 100 with h | h
    · rw [displayedAt_mid (T : ℚ) ht h1 (by omega)]
      exact ceil_frac_le_target T hT (by omega)
    · rw [displayedAt_late (T : ℚ) ht h]

/-- Witness for C6 at `T = 3` and concrete step indices. -/
theorem counter_monotone_witness :
    displayedAt ((3 : ℤ) : ℚ) 50 ≤ displayedAt ((3 : ℤ) : ℚ) 51 ∧
    displayedAt ((3 : ℤ) : ℚ) 50 ≤ ((3 : ℤ) : ℚ) ∧
    displayedAt ((3 : ℤ) : ℚ) 100 = ((3 : ℤ) : ℚ) :=
  ⟨(counter_monotone 3 (by decide)).1 50 (by decide),
   (counter_monotone 3 (by decide)).2.1 50 (by decide),
   (counter_monotone 3 (by decide)).2.2⟩

/-- Claim C7: for target `0` the increment is `0`, the first call's check
`0 < 0` fails, `0` is written immediately, and no timer step is ever
scheduled. -/
theorem zero_target_immediate :
    increment 0 = 0 ∧
    runCounter 0 1 = { current := 0, displayed := some 0, scheduled := false } ∧
    ∀ n, 1 ≤ n → (runCounter 0 n).scheduled = false := by
  refine ⟨by rw [increment_eq]; norm_num, runCounter_target_zero, fun n hn => ?_⟩
  rw [runCounter_stable 0 1 (by rw [runCounter_target_zero]) n hn,
    runCounter_target_zero]

/-- Witness for C7 at step index 3. -/
theorem zero_target_immediate_witness : (runCounter 0 3).scheduled = false :=
  zero_target_immediate.2.2 3 (by decide)

/-- Claim C8 counterexample: when the toggle control is absent,
initialization itself faults (the `addEventListener` call dereferences
`null`), so initialization does not complete with the fault deferred to the
first click. -/
theorem missing_toggler_faults_at_init : menuInit none = Except.error () := rfl

/-- Claim C8 amended: a missing toggle control faults at initialization
itself, while a missing menu container lets initialization complete and
faults on the first click. -/
theorem missing_element_fault_timing :
    menuInit none = Except.error () ∧
    menuInit (some ()) = Except.ok () ∧
    menuClickHandler none = Except.error () ∧
    ∀ b, menuClickHandler (some b) = Except.ok (!b) :=
  ⟨rfl, rfl, rfl, fun _ => rfl⟩

/-- Claim C9: for a negative target the first call overshoots — the
accumulator `t / 100` already fails `current < target` — so the animation
stops immediately, writes the target, and never schedules a timer step. -/
theorem negative_target_immediate (t : ℚ) (ht : t < 0) :
    increment t = t / 100 ∧ t < increment t ∧
    runCounter t 1 = { current := increment t, displayed := some t, scheduled := false } ∧
    ∀ n, 1 ≤ n → runCounter t n = runCounter t 1 := by
  have hgt : t < t / 100 := by linarith
  have h1 : runCounter t 1
      = { current := increment t, displayed := some t, scheduled := false } := by
    have hge : t ≤ increment t := by rw [increment_eq]; exact hgt.le
    rw [show (1 : ℕ) = 0 + 1 from rfl, runCounter_succ, runCounter_zero, updateCounter]
    simp [initState, not_lt.mpr hge]
  exact ⟨increment_eq t, by rw [increment_eq]; exact hgt, h1,
    runCounter_stable t 1 (by rw [h1])⟩

/-- Witness for C9 at `t = -2` and step index 3. -/
theorem negative_target_immediate_witness :
    (-2 : ℚ) < 0 ∧ runCounter (-2) 3 = runCounter (-2) 1 :=
  ⟨by decide, (negative_target_immediate (-2) (by decide)).2.2.2 3 (by decide)⟩

/-- Claim C10: an absent `data-target` attribute reads as `null`, the `+`
coercion turns it into exactly `0`, and the run then behaves exactly like a
zero target: `0` is displayed immediately and no timer step is scheduled. -/
theorem missing_attribute_behaves_as_zero :
    readTarget none = 0 ∧
    runCounter (readTarget none) 1
      = { current := 0, displayed := some 0, scheduled := false } ∧
    ∀ n, 1 ≤ n → runCounter (readTarget none) n = runCounter (readTarget none) 1 := by
  refine ⟨rfl, runCounter_target_zero, fun n hn => ?_⟩
  exact runCounter_stable 0 1 (by rw [runCounter_target_zero]) n hn

/-- Witness for C10 at step index 4. -/
theorem missing_attribute_behaves_as_zero_witness :
    runCounter (readTarget none) 4 = runCounter (readTarget none) 1 :=
  missing_attribute_behaves_as_zero.2.2 4 (by decide)

end Oylab
